import Mathlib

/-!
Verification of the Talking T core (mr_t_talker.py): scheduler arithmetic,
speech-backend selection and fallback, and the presentation state machine.

Wall-clock instants are modelled as natural numbers of microseconds since an
arbitrary epoch; the Python `datetime` field operations used by the code
(truncation of seconds/microseconds, replacing the minute field, adding a
timedelta) become arithmetic on that representation.
-/

namespace TalkingT

/-- Microseconds per second. -/
def usPerSecond : Nat := 1000000

/-- Microseconds per minute. -/
def usPerMinute : Nat := 60000000

/-- Microseconds per hour. -/
def usPerHour : Nat := 3600000000

/-- The three schedule policies of the MODES dictionary in mr_t_talker.py
("Every minute" / "Every 10 minutes" / "Hourly on the hour"). -/
inductive ScheduleMode where
  | everyMinute
  | everyTenMinutes
  | hourlyOnHour
deriving DecidableEq, Repr

/-- `now.replace(second=0, microsecond=0)`: truncation to the whole minute. -/
def minuteFloor (t : Nat) : Nat := t / usPerMinute * usPerMinute

/-- The minute field of an instant (the `.minute` attribute of a datetime). -/
def minuteOf (t : Nat) : Nat := t / usPerMinute % 60

/-- `t.replace(minute=m)` for an instant `t`: subtract the current minute
field and install `m` as the minute field.  Used by the code only with
`m ≤ minuteOf t` (the ten-minute bucket) or `m = 0`, where it is the
datetime field replacement. -/
def replaceMinute (t m : Nat) : Nat := t - minuteOf t * usPerMinute + m * usPerMinute

/-- Embedding of `MrTTalker._compute_next_fire` (mr_t_talker.py lines
206-220): `base = now.replace(second=0, microsecond=0)`; "minute" returns
`base + 1 minute`; "hourly" returns `(base + 1 hour).replace(minute=0)`;
"ten_minutes" computes `minute_bucket = (base.minute // 10) * 10`,
`candidate = base.replace(minute=minute_bucket)` and adds ten minutes when
`candidate <= now`. -/
def computeNextFire (mode : ScheduleMode) (now : Nat) : Nat :=
  let base := minuteFloor now
  match mode with
  | .everyMinute => base + usPerMinute
  | .hourlyOnHour => replaceMinute (base + usPerHour) 0
  | .everyTenMinutes =>
      let minuteBucket := minuteOf base / 10 * 10
      let candidate := replaceMinute base minuteBucket
      if candidate ≤ now then candidate + 10 * usPerMinute else candidate

/-- Truncation of an instant to the whole hour. -/
def hourFloor (t : Nat) : Nat := t / usPerHour * usPerHour

/-- The cadence rule of spec section 4.3, written from the words of the
spec: EveryMinute is Base + 1 minute for Base = now truncated to the minute;
HourlyOnHour is the top of the next hour; EveryTenMinutes takes the
candidate at minute `floor(Base.minute / 10) * 10` and advances it by ten
minutes when the candidate is at or before `now`. -/
def specNextFire (mode : ScheduleMode) (now : Nat) : Nat :=
  match mode with
  | .everyMinute => minuteFloor now + usPerMinute
  | .hourlyOnHour => hourFloor now + usPerHour
  | .everyTenMinutes =>
      let base := minuteFloor now
      let bucket := minuteOf base / 10 * 10
      let candidate := replaceMinute base bucket
      if candidate ≤ now then candidate + 10 * usPerMinute else candidate

/-- The ten-minute branch of `_compute_next_fire` with the conditional
removed: the bucket-start candidate plus ten minutes, unconditionally. -/
def tenMinuteUnconditional (now : Nat) : Nat :=
  let base := minuteFloor now
  let minuteBucket := minuteOf base / 10 * 10
  replaceMinute base minuteBucket + 10 * usPerMinute

/-- Claim C1: for every ScheduleMode and every instant `now`,
`computeNextFire(mode, now)` is strictly greater than `now`. -/
theorem computeNextFire_strict_future (mode : ScheduleMode) (now : Nat) :
    now < computeNextFire mode now := by
  cases mode <;>
    simp only [computeNextFire, minuteFloor, minuteOf, replaceMinute,
      usPerMinute, usPerHour]
  · omega
  · split <;> omega
  · omega

/-- Claim C2: `computeNextFire` implements the cadence rules of spec
section 4.3 (it agrees with `specNextFire` on every mode and instant), and
the concrete examples hold: with day 0 as the date, EveryTenMinutes maps
10:00:00.000 to 10:10:00, 10:07:33 to 10:10:00 and 10:09:59.999 to
10:10:00, while HourlyOnHour maps 14:45:00 to 15:00:00 and 15:00:00 to
16:00:00. -/
theorem computeNextFire_cadence_spec :
    (∀ (mode : ScheduleMode) (now : Nat),
        computeNextFire mode now = specNextFire mode now) ∧
    computeNextFire .everyTenMinutes 36000000000 = 36600000000 ∧
    computeNextFire .everyTenMinutes 36453000000 = 36600000000 ∧
    computeNextFire .everyTenMinutes 36599999000 = 36600000000 ∧
    computeNextFire .hourlyOnHour 53100000000 = 54000000000 ∧
    computeNextFire .hourlyOnHour 54000000000 = 57600000000 := by
  refine ⟨fun mode now => ?_, by decide, by decide, by decide, by decide, by decide⟩
  cases mode <;>
    simp only [computeNextFire, specNextFire, minuteFloor, minuteOf, hourFloor,
      replaceMinute, usPerMinute, usPerHour]
  omega

/-- Claim C10: in the EveryTenMinutes branch the guard `candidate <= now` is
true for every `now`, so the branch adding ten minutes is always taken and
`computeNextFire` on that mode is extensionally the unconditional
bucket-start-plus-ten-minutes function; the conditional is dead code. -/
theorem tenMinuteGuard_deadCode (now : Nat) :
    replaceMinute (minuteFloor now) (minuteOf (minuteFloor now) / 10 * 10) ≤ now ∧
    computeNextFire .everyTenMinutes now = tenMinuteUnconditional now := by
  simp only [computeNextFire, tenMinuteUnconditional, minuteFloor, minuteOf,
    replaceMinute, usPerMinute]
  constructor
  · omega
  · split
    · rfl
    · omega

/-! Speech engine.  The `SpeechEngine` class holds the configuration probed
once at startup (`say_voice`, `shutil.which("piper")`, the two environment
variables).  External effects of a `speak` call — the synthesis subprocess,
audio playback, the fallback utility — are recorded as a list of actions,
and the filesystem is a list of paths, so that creation and removal of the
temporary wav artifact are observable. -/

/-- The fixed fallback voice, `SAY_VOICE` in mr_t_talker.py. -/
def SAY_VOICE : String := "Ralph"

/-- The fixed fallback speech rate, `SAY_SPEECH_RATE` in mr_t_talker.py. -/
def SAY_SPEECH_RATE : String := "150"

/-- Configuration captured by `SpeechEngine.__init__`: the fallback voice,
the result of `shutil.which("piper")` (`none` when not resolvable), and the
stripped values of `PIPER_MODEL_PATH` and `PIPER_CONFIG_PATH` (empty string
when unset). -/
structure SpeechConfig where
  say_voice : String
  piper_bin : Option String
  piper_model : String
  piper_config : String
deriving DecidableEq, Repr

/-- External nondeterminism of one `speak` call: which paths exist on disk,
the name handed out by `NamedTemporaryFile`, and the exit codes of the
synthesis and playback subprocesses. -/
structure SpeakEnv where
  fileExists : String → Bool
  tmpName : String
  piperExit : Int
  afplayExit : Int

/-- Observable external actions of the speech engine. -/
inductive Action where
  | runPiperSynth (model : String) (config : Option String) (phrase : String) (out : String)
  | playArtifact (path : String)
  | runSay (voice : String) (rate : String) (phrase : String)
deriving DecidableEq, Repr

/-- Create a path in the filesystem. -/
def fsAdd (fs : List String) (p : String) : List String := p :: fs

/-- `os.remove p`: after it, `p` is absent from the filesystem. -/
def fsRemove (fs : List String) (p : String) : List String :=
  fs.filter (fun q => q ≠ p)

/-- Result of a speech-engine call: the external actions performed, in
order, and the filesystem afterwards.  Every code path of the Python
methods returns (none raises), so the embedding is a total function. -/
structure SpeakOut where
  actions : List Action
  fs : List String
deriving DecidableEq, Repr

/-- Embedding of `SpeechEngine._piper_ready`: false when
`shutil.which("piper")` found nothing, false when the stripped
`PIPER_MODEL_PATH` is empty, otherwise whether that path exists on disk. -/
def piperReady (cfg : SpeechConfig) (ex : String → Bool) : Bool :=
  match cfg.piper_bin with
  | none => false
  | some _ => if cfg.piper_model = "" then false else ex cfg.piper_model

/-- Embedding of `SpeechEngine._speak_say`: run the `say` utility with the
fixed voice and rate and wait for it; no filesystem effect. -/
def speakSay (cfg : SpeechConfig) (phrase : String) : List Action :=
  [.runSay cfg.say_voice SAY_SPEECH_RATE phrase]

/-- Embedding of `SpeechEngine._speak_piper` (mr_t_talker.py lines
98-125): create the temporary wav file, run the synthesis process (with
the optional config argument when `piper_config` is nonempty and exists);
if it exits nonzero, fall back to `_speak_say` and return without playing;
otherwise play the artifact with `afplay` (`check=False`, so its exit code
is ignored); in all cases the `finally` block removes the wav file. -/
def speakPiper (cfg : SpeechConfig) (env : SpeakEnv) (phrase : String)
    (fs : List String) : SpeakOut :=
  let wav := env.tmpName
  let fs1 := fsAdd fs wav
  let configArg : Option String :=
    if cfg.piper_config ≠ "" ∧ env.fileExists cfg.piper_config then
      some cfg.piper_config
    else none
  let synth : Action := .runPiperSynth cfg.piper_model configArg phrase wav
  let actions : List Action :=
    if env.piperExit ≠ 0 then synth :: speakSay cfg phrase
    else [synth, .playArtifact wav]
  { actions := actions, fs := fsRemove fs1 wav }

/-- Embedding of `SpeechEngine.speak`: the piper path when `_piper_ready`,
otherwise the `say` fallback directly. -/
def speak (cfg : SpeechConfig) (env : SpeakEnv) (phrase : String)
    (fs : List String) : SpeakOut :=
  if piperReady cfg env.fileExists then speakPiper cfg env phrase fs
  else { actions := speakSay cfg phrase, fs := fs }

/-- The last path component, modelling `Path(p).name` as used on the model
path in `description`. -/
def pathBaseName (s : String) : String := (s.splitOn "/").getLastD s

/-- Embedding of `SpeechEngine.description`: a pure function of the
configuration and the filesystem probe, with no effect on either. -/
def description (cfg : SpeechConfig) (ex : String → Bool) : String :=
  if piperReady cfg ex then "Piper (" ++ pathBaseName cfg.piper_model ++ ")"
  else "say (" ++ cfg.say_voice ++ ")"

/-- Whether a speech-engine call attempted the preferred backend first:
its first external action is the piper synthesis process. -/
def attemptsPiperFirst (out : SpeakOut) : Bool :=
  match out.actions with
  | .runPiperSynth _ _ _ _ :: _ => true
  | _ => false

/-- The condition "its model resource exists on disk": a model path is
configured (nonempty after stripping) and that path exists.  The
nonemptiness conjunct mirrors the `if not self.piper_model` guard; an
empty setting configures no model resource at all. -/
def modelResourceOnDisk (cfg : SpeechConfig) (ex : String → Bool) : Prop :=
  cfg.piper_model ≠ "" ∧ ex cfg.piper_model = true

instance (cfg : SpeechConfig) (ex : String → Bool) :
    Decidable (modelResourceOnDisk cfg ex) := by
  unfold modelResourceOnDisk; infer_instance

/-- Claim C5: when the preferred backend is selected and its synthesis
process exits nonzero, the call performs no playback of the artifact,
invokes the fallback with the same phrase, and returns normally (the
embedding is a total function, mirroring that every Python path returns
without raising). -/
theorem preferredFailure_falls_back (cfg : SpeechConfig) (env : SpeakEnv)
    (phrase : String) (fs : List String) (hfail : env.piperExit ≠ 0) :
    (∀ p, Action.playArtifact p ∉ (speakPiper cfg env phrase fs).actions) ∧
    Action.runSay cfg.say_voice SAY_SPEECH_RATE phrase ∈
      (speakPiper cfg env phrase fs).actions := by
  simp only [speakPiper, speakSay, if_pos hfail]
  constructor
  · intro p hp
    simp only [List.mem_cons, List.mem_singleton] at hp
    rcases hp with h | h | h <;> simp_all
  · simp

/-- A concrete configuration with the preferred backend available. -/
def demoConfig : SpeechConfig :=
  { say_voice := SAY_VOICE, piper_bin := some "/opt/piper",
    piper_model := "/m/voice.onnx", piper_config := "" }

/-- A concrete environment in which the synthesis process exits with 1. -/
def demoFailEnv : SpeakEnv :=
  { fileExists := fun _ => true, tmpName := "/tmp/t.wav",
    piperExit := 1, afplayExit := 0 }

/-- Claim C5 witness: a failing synthesis run on a concrete phrase. -/
theorem preferredFailure_falls_back_check :
    Action.playArtifact "/tmp/t.wav" ∉
      (speakPiper demoConfig demoFailEnv "Treat your mother right." []).actions ∧
    Action.runSay SAY_VOICE SAY_SPEECH_RATE "Treat your mother right." ∈
      (speakPiper demoConfig demoFailEnv "Treat your mother right." []).actions := by
  have h := preferredFailure_falls_back demoConfig demoFailEnv
    "Treat your mother right." [] (by decide)
  exact ⟨h.1 "/tmp/t.wav", h.2⟩

/-- Claim C6: on every exit path of a preferred-backend invocation —
synthesis success then playback, synthesis failure with fallback, or
playback failure (any `afplayExit`) — the temporary wav artifact is absent
from the filesystem when the call returns. -/
theorem tempArtifact_removed (cfg : SpeechConfig) (env : SpeakEnv)
    (phrase : String) (fs : List String) :
    env.tmpName ∉ (speakPiper cfg env phrase fs).fs := by
  simp only [speakPiper, fsRemove, fsAdd]
  intro h
  have := (List.mem_filter.mp h).2
  simp at this

lemma piperReady_iff (cfg : SpeechConfig) (ex : String → Bool) :
    piperReady cfg ex = true ↔
      (cfg.piper_bin.isSome = true ∧ modelResourceOnDisk cfg ex) := by
  unfold piperReady modelResourceOnDisk
  cases cfg.piper_bin
  · simp
  · simp only [Option.isSome_some, true_and]
    split <;> simp_all

lemma attemptsPiperFirst_speakPiper (cfg : SpeechConfig) (env : SpeakEnv)
    (phrase : String) (fs : List String) :
    attemptsPiperFirst (speakPiper cfg env phrase fs) = true := by
  unfold speakPiper
  by_cases h : env.piperExit ≠ 0 <;> simp [h, attemptsPiperFirst, speakSay]

lemma sayDesc_ne_piperDesc (v n : String) :
    ("say (" ++ v ++ ")" : String) ≠ "Piper (" ++ n ++ ")" := by
  intro h
  have h2 := congrArg String.data h
  simp [String.data_append] at h2

/-- Claim C8: `speak` attempts the preferred backend first exactly when the
piper executable is resolvable and the model resource exists on disk;
`description` reports the preferred form `Piper (<model name>)` exactly
under the same condition; hence the two always agree on the selected
backend.  `description` is a pure function of the configuration and the
filesystem probe. -/
theorem backendSelection_agrees (cfg : SpeechConfig) (env : SpeakEnv)
    (phrase : String) (fs : List String) :
    (attemptsPiperFirst (speak cfg env phrase fs) = true ↔
      cfg.piper_bin.isSome = true ∧ modelResourceOnDisk cfg env.fileExists) ∧
    (description cfg env.fileExists =
        "Piper (" ++ pathBaseName cfg.piper_model ++ ")" ↔
      cfg.piper_bin.isSome = true ∧ modelResourceOnDisk cfg env.fileExists) ∧
    (attemptsPiperFirst (speak cfg env phrase fs) = true ↔
      description cfg env.fileExists =
        "Piper (" ++ pathBaseName cfg.piper_model ++ ")") := by
  have hr := piperReady_iff cfg env.fileExists
  have h1 : attemptsPiperFirst (speak cfg env phrase fs) = true ↔
      piperReady cfg env.fileExists = true := by
    unfold speak
    by_cases h : piperReady cfg env.fileExists = true
    · simp [h, attemptsPiperFirst_speakPiper]
    · simp only [h, if_neg, Bool.false_eq_true, iff_false, if_false]
      simp [attemptsPiperFirst, speakSay]
  have h2 : (description cfg env.fileExists =
      "Piper (" ++ pathBaseName cfg.piper_model ++ ")") ↔
      piperReady cfg env.fileExists = true := by
    unfold description
    by_cases h : piperReady cfg env.fileExists = true
    · simp [h]
    · simp only [h, if_false, Bool.false_eq_true, iff_false]
      exact sayDesc_ne_piperDesc cfg.say_voice (pathBaseName cfg.piper_model)
  exact ⟨h1.trans hr, h2.trans hr, h1.trans h2.symm⟩

/-! Coordinator and presentation state machine.  The mutable attributes of
`MrTTalker` that the claims concern become a record; the tkinter callbacks
(`_scheduler_tick`, `_animate_mouth`, the scheduled `_hide_avatar`, the
speech-thread completion delivered through `root.after(0, ...)`) become
steps on that record.  The random draw of `_stop_animation`
(`random.random() < END_POSE_PROBABILITY`) is passed in as a boolean. -/

/-- The image currently installed on the face label: the closed-mouth
image, one of the talking frames, or the end-pose image. -/
inductive Face where
  | closed
  | talk (i : Nat)
  | endPose
deriving DecidableEq, Repr

/-- The mutable state of `MrTTalker` relevant to scheduling and
presentation: the `is_speaking` flag, the pending `next_fire` instant, the
selected mode, the frame cursor, the face image, whether the avatar window
is shown, whether a `_hide_avatar` call is scheduled (the end-pose hold),
whether an animation callback is scheduled, and how many speech threads
are running.  `numFrames` (the length of `talk_frames`, at least 1) and
`hasEndImg` (whether the end-pose image existed at startup) are fixed at
construction. -/
structure AppState where
  is_speaking : Bool
  next_fire : Option Nat
  mode : ScheduleMode
  frame_index : Nat
  numFrames : Nat
  hasEndImg : Bool
  face : Face
  avatar_shown : Bool
  pendingHide : Bool
  animation_job : Bool
  inFlight : Nat
deriving DecidableEq, Repr

/-- `_show_avatar`: deiconify the avatar window. -/
def showAvatar (st : AppState) : AppState := { st with avatar_shown := true }

/-- `_hide_avatar`: withdraw the avatar window. -/
def hideAvatar (st : AppState) : AppState := { st with avatar_shown := false }

/-- The scheduled `_hide_avatar` of the end-pose hold firing. -/
def firePendingHide (st : AppState) : AppState :=
  if st.pendingHide then { st with avatar_shown := false, pendingHide := false }
  else st

/-- `_animate_mouth`: when not speaking, install the closed image and stop;
otherwise install the talking frame at the cursor modulo the frame count,
advance the cursor, and reschedule itself. -/
def animateMouth (st : AppState) : AppState :=
  if st.is_speaking = false then { st with face := .closed }
  else
    { st with face := .talk (st.frame_index % st.numFrames),
              frame_index := st.frame_index + 1,
              animation_job := true }

/-- `_start_animation`: set `is_speaking`, reset the frame cursor to 0,
show the avatar, and run `_animate_mouth` once (which installs frame 0 and
schedules the next flip). -/
def startAnimation (st : AppState) : AppState :=
  animateMouth (showAvatar { st with is_speaking := true, frame_index := 0 })

/-- `_stop_animation` (mr_t_talker.py lines 262-273): clear `is_speaking`,
cancel any scheduled animation callback, then either (end image present
and the random draw below `END_POSE_PROBABILITY`) install the end pose
and schedule `_hide_avatar` after the hold, or install the closed image
and hide the avatar immediately.  There is no guard on the previous value
of `is_speaking`. -/
def stopAnimation (st : AppState) (draw : Bool) : AppState :=
  let st1 := { st with is_speaking := false, animation_job := false }
  if st.hasEndImg ∧ draw then
    { st1 with face := .endPose, pendingHide := true }
  else
    hideAvatar { st1 with face := .closed }

/-- `speak_now`: return immediately when `is_speaking` is set; otherwise
start the animation and launch the speech thread (recorded by
incrementing `inFlight`; the chosen phrase does not touch this state). -/
def speakNow (st : AppState) : AppState :=
  if st.is_speaking then st
  else
    let st1 := startAnimation st
    { st1 with inFlight := st1.inFlight + 1 }

/-- `_reset_schedule` at instant `now`: store the recomputed next fire. -/
def resetSchedule (st : AppState) (now : Nat) : AppState :=
  { st with next_fire := some (computeNextFire st.mode now) }

/-- One pass of `_scheduler_tick` (mr_t_talker.py lines 229-235): when a
next fire is stored, it is due, and nothing is speaking, run `speak_now`
and recompute the next fire from the post-dispatch instant `now2`;
otherwise leave the state alone.  (The callback always reschedules itself;
that re-arming is the iteration of this step.) -/
def schedulerTick (st : AppState) (now now2 : Nat) : AppState :=
  match st.next_fire with
  | some nf =>
      if nf ≤ now ∧ st.is_speaking = false then
        resetSchedule (speakNow st) now2
      else st
  | none => st

/-- Completion of the speech thread: the `finally` block posts
`_stop_animation` back to the main loop, and the thread exits
(`inFlight` decreases). -/
def speechComplete (st : AppState) (draw : Bool) : AppState :=
  { stopAnimation st draw with inFlight := st.inFlight - 1 }

/-- `_on_mode_change` after the menu sets a new mode: reset the schedule
at the current instant. -/
def setMode (st : AppState) (m : ScheduleMode) (now : Nat) : AppState :=
  resetSchedule { st with mode := m } now

/-- The state built by `MrTTalker.__init__` at instant `now0`: not
speaking, no job, no thread, default mode "Every 10 minutes", closed face,
avatar withdrawn, frame cursor 0, and the schedule reset. -/
def initState (now0 : Nat) (hasEnd : Bool) (nFrames : Nat) : AppState :=
  { is_speaking := false,
    next_fire := some (computeNextFire .everyTenMinutes now0),
    mode := .everyTenMinutes,
    frame_index := 0,
    numFrames := nFrames,
    hasEndImg := hasEnd,
    face := .closed,
    avatar_shown := false,
    pendingHide := false,
    animation_job := false,
    inFlight := 0 }

/-- The abstract presentation state of spec section 4.2, read off the
concrete state: Speaking while `is_speaking`, EndFlourish while the end
pose is installed, Idle otherwise. -/
inductive PresState where
  | idle
  | speaking
  | endFlourish
deriving DecidableEq, Repr

/-- Abstraction from the concrete record to the spec state machine. -/
def presState (st : AppState) : PresState :=
  if st.is_speaking then .speaking
  else if st.face = .endPose then .endFlourish
  else .idle

/-- The coordinator states reachable from startup under the events of the
application: scheduler ticks, the manual "Speak now" menu command, speech
completion (possible only while a thread runs), the animation callback,
mode changes, and the scheduled end-pose hide. -/
inductive Reachable (now0 : Nat) (hasEnd : Bool) (nFrames : Nat) : AppState → Prop where
  | init : Reachable now0 hasEnd nFrames (initState now0 hasEnd nFrames)
  | tick (s : AppState) (now now2 : Nat) :
      Reachable now0 hasEnd nFrames s →
      Reachable now0 hasEnd nFrames (schedulerTick s now now2)
  | manual (s : AppState) :
      Reachable now0 hasEnd nFrames s →
      Reachable now0 hasEnd nFrames (speakNow s)
  | complete (s : AppState) (draw : Bool) :
      Reachable now0 hasEnd nFrames s → 0 < s.inFlight →
      Reachable now0 hasEnd nFrames (speechComplete s draw)
  | animate (s : AppState) :
      Reachable now0 hasEnd nFrames s →
      Reachable now0 hasEnd nFrames (animateMouth s)
  | modeSet (s : AppState) (m : ScheduleMode) (now : Nat) :
      Reachable now0 hasEnd nFrames s →
      Reachable now0 hasEnd nFrames (setMode s m now)
  | hideFire (s : AppState) :
      Reachable now0 hasEnd nFrames s →
      Reachable now0 hasEnd nFrames (firePendingHide s)

lemma speakNow_not_speaking (st : AppState) (h : st.is_speaking = false) :
    speakNow st = { startAnimation st with inFlight := (startAnimation st).inFlight + 1 } := by
  simp [speakNow, h]

lemma speakNow_speaking (st : AppState) (h : st.is_speaking = true) :
    speakNow st = st := by
  simp [speakNow, h]

lemma startAnimation_speaking (st : AppState) :
    (startAnimation st).is_speaking = true := by
  simp [startAnimation, animateMouth, showAvatar]

lemma startAnimation_inFlight (st : AppState) :
    (startAnimation st).inFlight = st.inFlight := by
  simp [startAnimation, animateMouth, showAvatar]

/-- The single-flight invariant: in every reachable state the number of
running speech threads is at most one and equals one exactly while
`is_speaking` is set. -/
lemma reachable_single_flight {now0 : Nat} {hasEnd : Bool} {nFrames : Nat}
    {st : AppState} (h : Reachable now0 hasEnd nFrames st) :
    st.inFlight ≤ 1 ∧ (st.is_speaking = true ↔ st.inFlight = 1) := by
  induction h with
  | init => simp [initState]
  | tick s now now2 _ ih =>
      rcases hnf : s.next_fire with _ | nf
      · simpa [schedulerTick, hnf] using ih
      · by_cases hdue : nf ≤ now ∧ s.is_speaking = false
        · have hzero : s.inFlight = 0 := by
            rcases ih with ⟨hle, hiff⟩
            by_contra hne
            have h1 : s.inFlight = 1 := by omega
            rw [hiff.mpr h1] at hdue
            exact Bool.noConfusion hdue.2
          simp [schedulerTick, hnf, hdue, resetSchedule,
            speakNow_not_speaking s hdue.2, startAnimation_speaking,
            startAnimation_inFlight, hzero]
        · simpa [schedulerTick, hnf, hdue] using ih
  | manual s _ ih =>
      by_cases hsp : s.is_speaking = true
      · rw [speakNow_speaking s hsp]; exact ih
      · have hsp' : s.is_speaking = false := by
          cases hx : s.is_speaking
          · rfl
          · exact absurd hx hsp
        have hzero : s.inFlight = 0 := by
          rcases ih with ⟨hle, hiff⟩
          by_contra hne
          have h1 : s.inFlight = 1 := by omega
          rw [hiff.mpr h1] at hsp'
          exact Bool.noConfusion hsp'
        simp [speakNow_not_speaking s hsp', startAnimation_speaking,
          startAnimation_inFlight, hzero]
  | complete s draw _ hpos ih =>
      have hone : s.inFlight = 1 := by omega
      unfold speechComplete stopAnimation hideAvatar
      split <;> simp [hone]
  | animate s _ ih =>
      unfold animateMouth
      split <;> simpa using ih
  | modeSet s m now _ ih => simpa [setMode, resetSchedule] using ih
  | hideFire s _ ih =>
      unfold firePendingHide
      split <;> simpa using ih

/-- Claim C3: (1) a scheduler tick while an utterance is in flight is a
complete no-op — no second `speak` dispatch and `next_fire` unchanged;
(2) every reachable state has at most one utterance in flight; (3) after
the in-flight utterance completes, `next_fire` is still the old due
instant, the speaking flag is clear, and the first due tick afterwards
dispatches a new utterance (the speaking flag is set again and a thread is
launched). -/
theorem coordinator_single_flight :
    (∀ (st : AppState) (now now2 : Nat),
        st.is_speaking = true → schedulerTick st now now2 = st) ∧
    (∀ (now0 : Nat) (hasEnd : Bool) (nFrames : Nat) (st : AppState),
        Reachable now0 hasEnd nFrames st → st.inFlight ≤ 1) ∧
    (∀ (st : AppState) (nf : Nat) (draw : Bool) (now3 now4 : Nat),
        st.is_speaking = true → st.next_fire = some nf → nf ≤ now3 →
        (speechComplete st draw).next_fire = some nf ∧
        (speechComplete st draw).is_speaking = false ∧
        (schedulerTick (speechComplete st draw) now3 now4).is_speaking = true ∧
        (schedulerTick (speechComplete st draw) now3 now4).inFlight =
          (speechComplete st draw).inFlight + 1) := by
  refine ⟨?_, ?_, ?_⟩
  · intro st now now2 hsp
    rcases hnf : st.next_fire with _ | nf
    · simp [schedulerTick, hnf]
    · simp [schedulerTick, hnf, hsp]
  · intro now0 hasEnd nFrames st h
    exact (reachable_single_flight h).1
  · intro st nf draw now3 now4 hsp hnf hdue
    have hcnf : (speechComplete st draw).next_fire = some nf := by
      unfold speechComplete stopAnimation hideAvatar
      split <;> simpa using hnf
    have hcsp : (speechComplete st draw).is_speaking = false := by
      unfold speechComplete stopAnimation hideAvatar
      split <;> rfl
    refine ⟨hcnf, hcsp, ?_, ?_⟩ <;>
    · simp only [schedulerTick, hcnf]
      rw [if_pos ⟨hdue, hcsp⟩]
      simp [resetSchedule, speakNow_not_speaking _ hcsp,
        startAnimation_speaking, startAnimation_inFlight]

/-- Claim C3 witness: a concrete in-flight state with a due trigger. -/
theorem coordinator_single_flight_check :
    (schedulerTick
      { is_speaking := true, next_fire := some 5, mode := .everyMinute,
        frame_index := 3, numFrames := 3, hasEndImg := true, face := .talk 2,
        avatar_shown := true, pendingHide := false, animation_job := true,
        inFlight := 1 } 7 8 =
      { is_speaking := true, next_fire := some 5, mode := .everyMinute,
        frame_index := 3, numFrames := 3, hasEndImg := true, face := .talk 2,
        avatar_shown := true, pendingHide := false, animation_job := true,
        inFlight := 1 }) ∧
    (initState 0 true 3).inFlight ≤ 1 ∧
    (schedulerTick (speechComplete
      { is_speaking := true, next_fire := some 5, mode := .everyMinute,
        frame_index := 3, numFrames := 3, hasEndImg := true, face := .talk 2,
        avatar_shown := true, pendingHide := false, animation_job := true,
        inFlight := 1 } false) 7 8).is_speaking = true := by
  refine ⟨coordinator_single_flight.1 _ 7 8 rfl,
    coordinator_single_flight.2.1 0 true 3 _ Reachable.init,
    (coordinator_single_flight.2.2 _ 5 false 7 8 rfl rfl (by decide)).2.2.1⟩

/-- Claim C7: a second `speak_now` without an intervening completion is a
no-op — after the first call the state is Speaking, and the second call
returns the state unchanged (in particular the frame cursor keeps the
value it had immediately before the second call instead of being reset
to 0). -/
theorem startTwice_idempotent (st : AppState) :
    (speakNow st).is_speaking = true ∧ speakNow (speakNow st) = speakNow st := by
  by_cases hsp : st.is_speaking = true
  · rw [speakNow_speaking st hsp]
    exact ⟨hsp, speakNow_speaking st hsp⟩
  · have hsp' : st.is_speaking = false := by
      cases hx : st.is_speaking
      · rfl
      · exact absurd hx hsp
    have h1 : (speakNow st).is_speaking = true := by
      rw [speakNow_not_speaking st hsp']
      exact startAnimation_speaking st
    exact ⟨h1, speakNow_speaking _ h1⟩

/-- A state in the EndFlourish phase: speech has completed, the end pose
is installed, the avatar is still shown, and the hold-then-hide call is
scheduled.  (It is the state produced by `speechComplete` with a
successful draw.) -/
def flourishState : AppState :=
  { is_speaking := false, next_fire := some 0, mode := .everyTenMinutes,
    frame_index := 4, numFrames := 3, hasEndImg := true, face := .endPose,
    avatar_shown := true, pendingHide := true, animation_job := false,
    inFlight := 0 }

/-- Claim C4 counterexample: `_stop_animation` has no source-state guard,
so calling it in a non-Speaking state is not a no-op — from the
EndFlourish state with a failed draw it changes the selected image (end
pose to closed) and the avatar visibility (shown to hidden). -/
theorem finishOutsideSpeaking_not_noop :
    presState flourishState ≠ PresState.speaking ∧
    (stopAnimation flourishState false).face ≠ flourishState.face ∧
    (stopAnimation flourishState false).avatar_shown ≠ flourishState.avatar_shown := by
  decide

/-- Claim C4 amended: calling `_stop_animation` in a state other than
Speaking never enters Speaking and never touches the frame cursor, but it
is not a no-op: it re-runs the finishing effects — with the end image
present and a successful draw it installs the end pose and schedules the
avatar hide, otherwise it installs the closed-mouth image and hides the
avatar immediately. -/
theorem finishOutsideSpeaking_effects (st : AppState) (draw : Bool)
    (_h : st.is_speaking = false) :
    (stopAnimation st draw).is_speaking = false ∧
    (stopAnimation st draw).frame_index = st.frame_index ∧
    (if st.hasEndImg = true ∧ draw = true then
        (stopAnimation st draw).face = Face.endPose ∧
        (stopAnimation st draw).pendingHide = true ∧
        (stopAnimation st draw).avatar_shown = st.avatar_shown
      else
        (stopAnimation st draw).face = Face.closed ∧
        (stopAnimation st draw).avatar_shown = false) := by
  unfold stopAnimation hideAvatar
  split <;> simp_all

/-- Claim C4 amended witness: the EndFlourish state with a failed draw. -/
theorem finishOutsideSpeaking_effects_check :
    flourishState.is_speaking = false ∧
    ((stopAnimation flourishState false).is_speaking = false ∧
      (stopAnimation flourishState false).frame_index = flourishState.frame_index ∧
      (if flourishState.hasEndImg = true ∧ false = true then
          (stopAnimation flourishState false).face = Face.endPose ∧
          (stopAnimation flourishState false).pendingHide = true ∧
          (stopAnimation flourishState false).avatar_shown = flourishState.avatar_shown
        else
          (stopAnimation flourishState false).face = Face.closed ∧
          (stopAnimation flourishState false).avatar_shown = false)) :=
  ⟨by decide, finishOutsideSpeaking_effects flourishState false (by decide)⟩

/-- Claim C9: when the end-pose image did not exist at startup, finishing
from Speaking installs the closed-mouth image and hides the avatar
immediately, landing in Idle whatever the random draw — and conversely
the end pose can only ever be installed by `_stop_animation` when the end
image was loaded. -/
theorem noEndImage_noFlourish (st : AppState) (draw : Bool) :
    (st.is_speaking = true → st.hasEndImg = false →
      (stopAnimation st draw).face = Face.closed ∧
      (stopAnimation st draw).avatar_shown = false ∧
      presState (stopAnimation st draw) = PresState.idle) ∧
    ((stopAnimation st draw).face = Face.endPose → st.hasEndImg = true) := by
  constructor
  · intro _ hno
    unfold stopAnimation hideAvatar presState
    rw [if_neg (by simp [hno])]
    simp
  · intro hface
    unfold stopAnimation hideAvatar at hface
    by_cases hc : st.hasEndImg = true ∧ draw = true
    · exact hc.1
    · rw [if_neg hc] at hface
      exact absurd hface (by simp)

/-- A concrete Speaking state whose end-pose image was missing at
startup. -/
def speakingNoEndState : AppState :=
  { is_speaking := true, next_fire := some 0, mode := .everyMinute,
    frame_index := 1, numFrames := 1, hasEndImg := false, face := .talk 0,
    avatar_shown := true, pendingHide := false, animation_job := true,
    inFlight := 1 }

/-- Claim C9 witness: a Speaking state without the end image, finished
with a successful draw, still lands in Idle with the closed image. -/
theorem noEndImage_noFlourish_check :
    speakingNoEndState.is_speaking = true ∧
    speakingNoEndState.hasEndImg = false ∧
    ((stopAnimation speakingNoEndState true).face = Face.closed ∧
      (stopAnimation speakingNoEndState true).avatar_shown = false ∧
      presState (stopAnimation speakingNoEndState true) = PresState.idle) :=
  ⟨by decide, by decide,
    (noEndImage_noFlourish speakingNoEndState true).1 (by decide) (by decide)⟩

end TalkingT
